import Mathlib

/-!
Shallow embedding of `src/event-tracker.js` (a browser-side universal event
tracker) and verification of its specification claims.

JavaScript numbers appearing in the scroll-percentage computation are modelled
by `JSNum` (a rational together with NaN and the two infinities); machine
strings are Lean `String`s; DOM elements are records of the properties the
tracker reads; code that can throw a `TypeError` is modelled in `Except`.
-/

namespace EventTracker

/-- JavaScript number semantics for the scroll-percentage computation:
a finite value (modelled as a rational), NaN, or a signed infinity. -/
inductive JSNum where
  | num : ℚ → JSNum
  | nan : JSNum
  | posInf : JSNum
  | negInf : JSNum
deriving DecidableEq

/-- JavaScript division `a / b`, including division by zero
(`0/0 = NaN`, `a/0 = ±Infinity` for `a ≠ 0`). -/
def jsDiv (a b : ℚ) : JSNum :=
  if b = 0 then
    if a = 0 then .nan else if a > 0 then .posInf else .negInf
  else .num (a / b)

/-- Multiplication of a JavaScript number by a finite constant. -/
def jsMulC (x : JSNum) (c : ℚ) : JSNum :=
  match x with
  | .num q => .num (q * c)
  | .nan => .nan
  | .posInf => if c > 0 then .posInf else if c < 0 then .negInf else .nan
  | .negInf => if c > 0 then .negInf else if c < 0 then .posInf else .nan

/-- `Math.round`: round half toward positive infinity on finite values;
NaN and the infinities are fixed points. -/
def jsRound : JSNum → JSNum
  | .num q => .num ((⌊q + 1/2⌋ : ℤ) : ℚ)
  | x => x

/-- The `x || 0` fallback: NaN and 0 (including -0) become 0; every other
value, in particular Infinity, is kept unchanged. -/
def jsOrZero : JSNum → JSNum
  | .nan => .num 0
  | .num q => if q = 0 then .num 0 else .num q
  | x => x

/-- JavaScript `>` comparison on numbers; any comparison with NaN is false. -/
def jsGt (a b : JSNum) : Bool :=
  match a, b with
  | .nan, _ => false
  | _, .nan => false
  | .num x, .num y => x > y
  | .num _, .posInf => false
  | .num _, .negInf => true
  | .posInf, .posInf => false
  | .posInf, _ => true
  | .negInf, _ => false

/-- `String.prototype.toLowerCase()`, written structurally over the
character list so that proofs can evaluate it. -/
def jsLower (s : String) : String := ⟨s.data.map Char.toLower⟩

/-- `String.prototype.trim()`: strip leading and trailing whitespace. -/
def jsTrim (s : String) : String :=
  ⟨((s.data.dropWhile Char.isWhitespace).reverse.dropWhile Char.isWhitespace).reverse⟩

/-- `String.prototype.substring(0, n)` (by characters). -/
def jsTake (n : Nat) (s : String) : String := ⟨s.data.take n⟩

/-- A DOM-like element: exactly the properties `event-tracker.js` reads.
`tagName := none` models an object whose `tagName` is `undefined`;
`className := none` models a non-string `className` (e.g. on SVG elements);
`type`, `role`, `selectedIndex`, `selectedOptions` are `none` when absent. -/
structure Element where
  tagName : Option String := none
  type : Option String := none
  role : Option String := none
  contentEditable : String := "inherit"
  id : String := ""
  className : Option String := none
  name : String := ""
  textContent : String := ""
  dataset : List (String × String) := []
  value : String := ""
  checked : Bool := false
  selectedIndex : Option Int := none
  selectedOptions : Option (List String) := none
deriving DecidableEq

/-- `element.type ? element.type.toLowerCase() : ''`. -/
def elementTypeAttr (el : Element) : String :=
  match el.type with
  | some t => if t = "" then "" else jsLower t
  | none => ""

/-- The `inputTypes` object literal inside `getElementType`. -/
def inputTypes : List (String × String) :=
  [("checkbox", "checkbox"), ("radio", "radio"), ("submit", "submit_button"),
   ("button", "input_button"), ("file", "file_upload"), ("range", "slider"),
   ("color", "color_picker"), ("date", "date_picker"), ("time", "time_picker"),
   ("search", "search_input"), ("tel", "phone_input"), ("url", "url_input"),
   ("email", "email_input"), ("number", "number_input"),
   ("password", "password_input")]

/-- `getElementType(element)`: classify a node into the semantic taxonomy,
mirroring the source's check order exactly. -/
def getElementType (element : Option Element) : String :=
  match element with
  | none => "unknown"
  | some el =>
    match el.tagName with
    | none => "unknown"
    | some tagRaw =>
      if tagRaw = "" then "unknown" else
      let tag := jsLower tagRaw
      let ty := elementTypeAttr el
      let contentEditable := el.contentEditable = "true"
      if tag = "button" then "button"
      else if tag = "a" then "link"
      else if tag = "img" then "image"
      else if tag = "video" then "video"
      else if tag = "audio" then "audio"
      else if tag = "canvas" then "canvas"
      else if tag = "svg" then "svg"
      else if tag = "select" then "dropdown"
      else if tag = "textarea" then "textarea"
      else if contentEditable then "contenteditable"
      else if tag = "input" then ((inputTypes.lookup ty).getD "text_input")
      else if ["h1", "h2", "h3", "h4", "h5", "h6"].contains tag then "heading"
      else if tag = "form" then "form"
      else if tag = "table" then "table"
      else if tag = "nav" then "navigation"
      else if tag = "iframe" then "iframe"
      else
        match el.role with
        | some r => if r = "" then tag else tag ++ "_" ++ r
        | none => tag

/-- Accumulate whitespace-run-separated tokens (accumulator holds the
current token reversed). -/
def wsTokensAux : List Char → List Char → List String
  | [], acc => if acc.isEmpty then [] else [⟨acc.reverse⟩]
  | c :: cs, acc =>
    if c.isWhitespace then
      if acc.isEmpty then wsTokensAux cs [] else ⟨acc.reverse⟩ :: wsTokensAux cs []
    else wsTokensAux cs (c :: acc)

/-- `s.split(/\s+/)` on an already-trimmed string: the empty string yields
`[""]`, otherwise split on whitespace runs. -/
def splitWs (s : String) : List String :=
  if s = "" then [""] else wsTokensAux s.data []

/-- `getElementIdentifier(element)`: build the human-readable identifier. -/
def getElementIdentifier (element : Option Element) : String :=
  match element with
  | none => "unknown"
  | some el =>
    let idPart := if el.id ≠ "" then "#" ++ el.id else ""
    let classes :=
      match el.className with
      | some s => if s ≠ "" then "." ++ String.intercalate "." (splitWs (jsTrim s)) else ""
      | none => ""
    let tag :=
      match el.tagName with
      | some t => if t = "" then "" else jsLower t
      | none => ""
    let namePart := if el.name ≠ "" then "[name=\"" ++ el.name ++ "\"]" else ""
    let text :=
      if el.textContent ≠ "" then
        " \"" ++ (jsTake 40 (jsTrim el.textContent))
          ++ (if el.textContent.length > 40 then "..." else "") ++ "\""
      else ""
    let dataAttrs := el.dataset.map (fun kv => "[data-" ++ kv.1 ++ "=\"" ++ kv.2 ++ "\"]")
    let full := jsTrim (tag ++ idPart ++ classes ++ namePart ++ String.join dataAttrs ++ text)
    if full = "" then "unknown" else full

/-- One level of `getElementPath`: walking the ancestor chain (self first,
excluding `document.body`) produces `tag#id.firstClass` per level.
Dereferencing `current.tagName.toLowerCase()` is unguarded in the source,
so a chain node without a tag name throws. -/
def pathPart (current : Element) : Except String String := do
  let tag ← match current.tagName with
    | some t => pure (jsLower t)
    | none => throw "TypeError: Cannot read properties of undefined (reading toLowerCase)"
  let idPart := if current.id ≠ "" then "#" ++ current.id else ""
  let cls :=
    match current.className with
    | some s => if s ≠ "" then "." ++ ((splitWs (jsTrim s)).headD "") else ""
    | none => ""
  pure (tag ++ idPart ++ cls)

/-- The per-level parts of the path, in walk order. -/
def pathParts : List Element → Except String (List String)
  | [] => pure []
  | current :: rest => do
    let p ← pathPart current
    let ps ← pathParts rest
    pure (p :: ps)

/-- The full `getElementPath` result. -/
def getElementPath (chain : List Element) : Except String String := do
  let parts ← pathParts chain
  pure (String.intercalate " > " parts.reverse)

/-- The `CONFIG` object (defaults as in the source). -/
structure Config where
  scrollThrottle : Int := 300
  mouseMoveThrottle : Int := 500
  resizeThrottle : Int := 500
  idleTimeout : Int := 30000
  trackMouseMovement : Bool := true
  trackKeyboard : Bool := true
  trackClipboard : Bool := true
  trackVisibility : Bool := true
  visibilityThreshold : ℚ := 1/2
deriving DecidableEq

/-- The `STATE` object.  Timestamps are integer epoch milliseconds; observed
elements are tracked by an abstract object identity (`Nat`); the mouse trail
keeps `(x, y, time)` triples. -/
structure TrackerState where
  eventCount : Nat := 0
  sessionStart : Int := 0
  lastActivity : Int := 0
  observedElements : List Nat := []
  scrollDepth : JSNum := .num 0
  maxScrollDepth : JSNum := .num 0
  isIdle : Bool := false
  mouseTrail : List (Int × Int × Int) := []
deriving DecidableEq

/-- The initial `STATE` at pipeline initialization. -/
def initState : TrackerState := {}

/-- The window/document scroll geometry read by `getScrollInfo`. -/
structure WindowState where
  pageYOffset : ℚ := 0
  docScrollTop : ℚ := 0
  scrollHeight : ℚ := 0
  innerHeight : ℚ := 0
  pageXOffset : ℚ := 0
  docScrollLeft : ℚ := 0
deriving DecidableEq

/-- `window.pageYOffset || document.documentElement.scrollTop`. -/
def effScrollTop (w : WindowState) : ℚ :=
  if w.pageYOffset ≠ 0 then w.pageYOffset else w.docScrollTop

/-- The record produced by `getScrollInfo`. -/
structure ScrollInfo where
  scroll_x : ℚ
  scroll_y : ℚ
  scroll_percentage : JSNum
  scroll_height : ℚ
  viewport_height : ℚ
deriving DecidableEq

/-- `getScrollInfo()`: compute the scroll metrics, with
`Math.round((scrollTop / (scrollHeight - clientHeight)) * 100) || 0`. -/
def getScrollInfo (w : WindowState) : ScrollInfo :=
  let scrollTop := effScrollTop w
  let scrollHeight := w.scrollHeight
  let clientHeight := w.innerHeight
  let scrollPercentage := jsOrZero (jsRound (jsMulC (jsDiv scrollTop (scrollHeight - clientHeight)) 100))
  { scroll_x := if w.pageXOffset ≠ 0 then w.pageXOffset else w.docScrollLeft
    scroll_y := scrollTop
    scroll_percentage := scrollPercentage
    scroll_height := scrollHeight
    viewport_height := clientHeight }

/-- A payload value: the primitive shapes appearing in `additionalInfo`
objects (nested objects such as `coordinates` are flattened into dotted
keys; arrays of strings cover `selected_options`). -/
inductive PValue where
  | str : String → PValue
  | int : Int → PValue
  | rat : ℚ → PValue
  | jnum : JSNum → PValue
  | bool : Bool → PValue
  | strList : List String → PValue
  | undef : PValue
deriving DecidableEq

/-- Payloads are ordered key-value maps, matching object-literal spreads. -/
def Payload := List (String × PValue)
deriving DecidableEq

/-- Look a key up in a payload. -/
def lookupP (p : Payload) (k : String) : Option PValue :=
  List.lookup k p

/-- The `session_info` sub-object embedded in every record. -/
structure SessionInfo where
  time_on_page_ms : Int
  total_events : Nat
  max_scroll_depth : JSNum
deriving DecidableEq

/-- The `logData` record handed to the sink by `logEvent`. -/
structure LogRecord where
  event_number : Nat
  timestamp : Int
  relative_time_ms : Int
  type_of_event : String
  event_object : String
  element_identifier : String
  element_tag : String
  element_path : String
  session_info : SessionInfo
  payload : Payload
deriving DecidableEq

/-- `logEvent(eventType, eventObject, element, additionalInfo)`.

The state mutations of lines 177-179 (`eventCount++`, `lastActivity = now`,
`isIdle = false`) always happen; building `logData` can then throw a
`TypeError` at the unguarded `element.tagName.toLowerCase()` (line 188) or
inside `getElementPath`, in which case the record is not emitted but the
state mutations persist.  `chain` is the element's ancestor chain
(self first, up to and excluding `document.body`), used for the path. -/
def logEvent (st : TrackerState) (now : Int) (eventType eventObject : String)
    (element : Option Element) (chain : List Element)
    (additionalInfo : Payload := []) : TrackerState × Except String LogRecord :=
  let stAfter : TrackerState :=
    { st with eventCount := st.eventCount + 1, lastActivity := now, isIdle := false }
  let record : Except String LogRecord := do
    let elementIdentifier :=
      match element with
      | some el => getElementIdentifier (some el)
      | none => "N/A"
    let elementTag ←
      match element with
      | some el =>
        match el.tagName with
        | some t => pure (jsLower t)
        | none => throw "TypeError: Cannot read properties of undefined (reading toLowerCase)"
      | none => pure "N/A"
    let elementPath ←
      match element with
      | some _ => getElementPath chain
      | none => pure "N/A"
    pure { event_number := stAfter.eventCount
           timestamp := now
           relative_time_ms := now - st.sessionStart
           type_of_event := eventType
           event_object := eventObject
           element_identifier := elementIdentifier
           element_tag := elementTag
           element_path := elementPath
           session_info :=
             { time_on_page_ms := now - st.sessionStart
               total_events := stAfter.eventCount
               max_scroll_depth := st.maxScrollDepth }
           payload := additionalInfo }
  (stAfter, record)

/-- `document.body` as seen by the handlers that log against it. -/
def documentBody : Element := { tagName := some "BODY" }

/-! ### Per-signal drivers -/

/-- A raw signal as presented to `logEvent`: the wall-clock time, the
record fields, the target element with its ancestor chain, and the
kind-specific payload. -/
structure SignalInput where
  now : Int
  eventType : String
  eventObject : String
  element : Option Element := none
  chain : List Element := []
  additionalInfo : Payload := []
deriving DecidableEq

/-- Node data is well formed when the target (if present) and every chain
node carry a tag name, so record construction cannot throw. -/
def wellFormedNode (element : Option Element) (chain : List Element) : Bool :=
  match element with
  | none => true
  | some el => el.tagName.isSome && chain.all (·.tagName.isSome)

/-- A signal whose node data is well formed. -/
def wellFormedInput (i : SignalInput) : Bool :=
  wellFormedNode i.element i.chain

/-- Process a sequence of signals through `logEvent`, collecting the
successfully emitted records in order. -/
def processSignals (st : TrackerState) : List SignalInput → TrackerState × List LogRecord
  | [] => (st, [])
  | i :: rest =>
    let out := logEvent st i.now i.eventType i.eventObject i.element i.chain i.additionalInfo
    let tail := processSignals out.1 rest
    (tail.1, (match out.2 with | .ok r => [r] | .error _ => []) ++ tail.2)

/-- The `change` handler's `additionalInfo` object: password-typed inputs
have their value replaced by the fixed mask `'***'`. -/
def changeHandlerPayload (element : Element) : Payload :=
  [("value", .str (if element.type = some "password" then "***" else element.value)),
   ("checked", .bool element.checked),
   ("selected_index", match element.selectedIndex with | some i => .int i | none => .undef),
   ("selected_options", match element.selectedOptions with | some opts => .strList opts | none => .undef)]

/-- The `change` listener: classify the target and log with the
(possibly redacted) payload. -/
def changeHandler (st : TrackerState) (now : Int) (element : Element)
    (chain : List Element) : TrackerState × Except String LogRecord :=
  logEvent st now "change" (getElementType (some element)) (some element) chain
    (changeHandlerPayload element)

/-- A keyboard event as read by the `keydown` listener. -/
structure KeyboardEvent where
  key : String
  code : String
  keyCode : Int := 0
  ctrlKey : Bool := false
  shiftKey : Bool := false
  altKey : Bool := false
  metaKey : Bool := false
  repeatFlag : Bool := false
  target : Option Element := none
  chain : List Element := []
deriving DecidableEq

/-- The `keydown` listener's `additionalInfo` object: the literal key data. -/
def keydownPayload (e : KeyboardEvent) : Payload :=
  [("key", .str e.key), ("code", .str e.code), ("key_code", .int e.keyCode),
   ("ctrl_key", .bool e.ctrlKey), ("shift_key", .bool e.shiftKey),
   ("alt_key", .bool e.altKey), ("meta_key", .bool e.metaKey),
   ("repeat", .bool e.repeatFlag)]

/-- The `keydown` listener, registered only when `CONFIG.trackKeyboard`. -/
def keydownHandler (cfg : Config) (st : TrackerState) (now : Int)
    (e : KeyboardEvent) : TrackerState × List (Except String LogRecord) :=
  if cfg.trackKeyboard then
    let out := logEvent st now "keyboard" "keydown" e.target e.chain (keydownPayload e)
    (out.1, [out.2])
  else (st, [])

/-- A mouse-move signal: arrival time, coordinates, movement deltas,
buttons, and the target with its chain. -/
structure MouseMove where
  time : Int
  clientX : Int
  clientY : Int
  movementX : Int := 0
  movementY : Int := 0
  buttons : Int := 0
  target : Option Element := none
  chain : List Element := []
deriving DecidableEq

/-- The `mousemove` listener's `additionalInfo` (coordinates flattened). -/
def mousemovePayload (e : MouseMove) : Payload :=
  [("coordinates.x", .int e.clientX), ("coordinates.y", .int e.clientY),
   ("movement.x", .int e.movementX), ("movement.y", .int e.movementY),
   ("buttons", .int e.buttons)]

/-- Push a mouse-trail sample, keeping at most the 10 most recent. -/
def trailPush (trail : List (Int × Int × Int)) (e : MouseMove) : List (Int × Int × Int) :=
  let t := trail ++ [(e.clientX, e.clientY, e.time)]
  if t.length > 10 then t.tail else t

/-- One `mousemove` listener invocation: push the trail sample, then log
only when more than `mouseMoveThrottle` ms have elapsed since
`lastMouseLog`, updating `lastMouseLog` to the emission time. -/
def mousemoveStep (cfg : Config) (st : TrackerState) (lastMouseLog : Int)
    (e : MouseMove) : TrackerState × Int × List (Except String LogRecord) :=
  let st := { st with mouseTrail := trailPush st.mouseTrail e }
  let now := e.time
  if now - lastMouseLog > cfg.mouseMoveThrottle then
    let out := logEvent st now "mouse_move" "cursor" e.target e.chain (mousemovePayload e)
    (out.1, now, [out.2])
  else (st, lastMouseLog, [])

/-- Process a sequence of mouse-move signals (the listener is registered
only when `CONFIG.trackMouseMovement`). -/
def runMouseMoves (cfg : Config) (st : TrackerState) (lastMouseLog : Int) :
    List MouseMove → TrackerState × Int × List (Except String LogRecord)
  | [] => (st, lastMouseLog, [])
  | e :: rest =>
    if cfg.trackMouseMovement then
      let out := mousemoveStep cfg st lastMouseLog e
      let tail := runMouseMoves cfg out.1 out.2.1 rest
      (tail.1, tail.2.1, out.2.2 ++ tail.2.2)
    else (st, lastMouseLog, [])

/-- The scroll payload: the `scrollInfo` object spread into the record. -/
def scrollPayload (info : ScrollInfo) : Payload :=
  [("scroll_x", .rat info.scroll_x), ("scroll_y", .rat info.scroll_y),
   ("scroll_percentage", .jnum info.scroll_percentage),
   ("scroll_height", .rat info.scroll_height),
   ("viewport_height", .rat info.viewport_height)]

/-- The debounced body of the `scroll` listener: read the scroll info,
store `scrollDepth`, raise `maxScrollDepth` if exceeded (before logging),
then log the scroll record against `document.body`. -/
def scrollHandlerFire (st : TrackerState) (now : Int) (w : WindowState) :
    TrackerState × Except String LogRecord :=
  let info := getScrollInfo w
  let st := { st with scrollDepth := info.scroll_percentage }
  let st :=
    if jsGt info.scroll_percentage st.maxScrollDepth then
      { st with maxScrollDepth := info.scroll_percentage }
    else st
  logEvent st now "scroll" "page" (some documentBody) [] (scrollPayload info)

/-- Process a sequence of debounced scroll firings. -/
def runScrolls (st : TrackerState) :
    List (Int × WindowState) → TrackerState × List (Except String LogRecord)
  | [] => (st, [])
  | s :: rest =>
    let out := scrollHandlerFire st s.1 s.2
    let tail := runScrolls out.1 rest
    (tail.1, out.2 :: tail.2)

/-- An `IntersectionObserverEntry`: the target's object identity, its
element data with ancestor chain, whether it is intersecting at the
configured threshold, and the reported ratio. -/
structure IOEntry where
  targetId : Nat
  target : Element
  chain : List Element := []
  isIntersecting : Bool
  ratioValue : ℚ := 1
deriving DecidableEq

/-- The `view` payload: rounded percentage ratio (bounding geometry is
summarised by the ratio in this model). -/
def viewPayload (entry : IOEntry) : Payload :=
  [("visibility_ratio", .str (toString (⌊entry.ratioValue * 100 + 1/2⌋ : ℤ) ++ "%"))]

/-- The `IntersectionObserver` callback body for one entry: if the entry is
intersecting and its target has not been observed yet, add it to
`observedElements` and log a `view` record.  Emitted attempts are paired
with the target identity. -/
def observeEntry (st : TrackerState) (now : Int) (entry : IOEntry) :
    TrackerState × List (Nat × Except String LogRecord) :=
  if entry.isIntersecting && !(st.observedElements.contains entry.targetId) then
    let st := { st with observedElements := entry.targetId :: st.observedElements }
    let out := logEvent st now "view" (getElementType (some entry.target))
      (some entry.target) entry.chain (viewPayload entry)
    (out.1, [(entry.targetId, out.2)])
  else (st, [])

/-- One observer callback invocation over a batch of entries (`forEach`). -/
def observerCallback (st : TrackerState) (now : Int) :
    List IOEntry → TrackerState × List (Nat × Except String LogRecord)
  | [] => (st, [])
  | entry :: rest =>
    let out := observeEntry st now entry
    let tail := observerCallback out.1 now rest
    (tail.1, out.2 ++ tail.2)

/-- A session-long sequence of observer callback invocations. -/
def runObserver (st : TrackerState) :
    List (Int × List IOEntry) → TrackerState × List (Nat × Except String LogRecord)
  | [] => (st, [])
  | batch :: rest =>
    let out := observerCallback st batch.1 batch.2
    let tail := runObserver out.1 rest
    (tail.1, out.2 ++ tail.2)

/-! ### Idle detection -/

/-- The idle subsystem's full state: the tracker state plus the pending
`setTimeout` fire time (if an idle timer is scheduled). -/
structure IdleSim where
  st : TrackerState
  pendingTimerAt : Option Int := none
deriving DecidableEq

/-- `resetIdleTimer()` at wall-clock time `now`: clear the pending timer,
emit `user_active` if currently idle (with `idle_duration_ms` computed from
`lastActivity` before `logEvent` overwrites it), then schedule a new idle
timer `idleTimeout` ms out. -/
def resetIdleTimer (cfg : Config) (sim : IdleSim) (now : Int) :
    IdleSim × List (Except String LogRecord) :=
  let sim := { sim with pendingTimerAt := none }
  let out :=
    if sim.st.isIdle then
      let dur := now - sim.st.lastActivity
      let st := { sim.st with isIdle := false }
      let logged := logEvent st now "user_active" "session" (some documentBody) []
        [("idle_duration_ms", .int dur)]
      ({ sim with st := logged.1 }, [logged.2])
    else (sim, ([] : List (Except String LogRecord)))
  ({ out.1 with pendingTimerAt := some (now + cfg.idleTimeout) }, out.2)

/-- The idle timer's callback at its fire time: set `isIdle`, then log
`user_idle` (note: `logEvent` immediately resets `isIdle` to `false` and
`lastActivity` to the fire time as part of its unconditional mutations). -/
def fireIdleTimer (cfg : Config) (sim : IdleSim) (fireTime : Int) :
    IdleSim × List (Except String LogRecord) :=
  let st := { sim.st with isIdle := true }
  let lastAct := st.lastActivity
  let logged := logEvent st fireTime "user_idle" "session" (some documentBody) []
    [("idle_timeout_ms", .int cfg.idleTimeout), ("last_activity", .int lastAct)]
  ({ st := logged.1, pendingTimerAt := none }, [logged.2])

/-- A qualifying raw signal for idle detection (e.g. a click), at a
wall-clock time; `emitsLog` says whether the signal's own capture-phase
listener logs a record (as a click does) before `resetIdleTimer` runs. -/
structure IdleSignal where
  time : Int
  emitsLog : Bool := true
deriving DecidableEq

/-- Handle one qualifying signal: first run the pending idle timer if its
fire time has passed, then the signal's own listener, then the
`resetIdleTimer` listener. -/
def handleIdleSignal (cfg : Config) (sim : IdleSim) (sig : IdleSignal) :
    IdleSim × List (Except String LogRecord) :=
  let fired :=
    match sim.pendingTimerAt with
    | some ft => if ft ≤ sig.time then fireIdleTimer cfg sim ft else (sim, [])
    | none => (sim, [])
  let clicked :=
    if sig.emitsLog then
      let logged := logEvent fired.1.st sig.time "click"
        (getElementType (some documentBody)) (some documentBody) [] []
      ({ fired.1 with st := logged.1 }, [logged.2])
    else (fired.1, ([] : List (Except String LogRecord)))
  let reset := resetIdleTimer cfg clicked.1 sig.time
  (reset.1, fired.2 ++ clicked.2 ++ reset.2)

/-- Process a time-ordered sequence of qualifying signals. -/
def runIdleSignals (cfg : Config) (sim : IdleSim) :
    List IdleSignal → IdleSim × List (Except String LogRecord)
  | [] => (sim, [])
  | sig :: rest =>
    let out := handleIdleSignal cfg sim sig
    let tail := runIdleSignals cfg out.1 rest
    (tail.1, out.2 ++ tail.2)

/-- A full idle-subsystem run: the initial `resetIdleTimer()` call at
session start (time 0), the signal sequence, and a final horizon `endTime`
at which a still-pending timer fires if due. -/
def runIdleSim (cfg : Config) (signals : List IdleSignal) (endTime : Int) :
    IdleSim × List (Except String LogRecord) :=
  let start := resetIdleTimer cfg { st := initState } 0
  let mid := runIdleSignals cfg start.1 signals
  let last :=
    match mid.1.pendingTimerAt with
    | some ft => if ft ≤ endTime then fireIdleTimer cfg mid.1 ft else (mid.1, [])
    | none => (mid.1, [])
  (last.1, start.2 ++ mid.2 ++ last.2)

/-- Count the successfully emitted records of a given event type. -/
def countType (rs : List (Except String LogRecord)) (ty : String) : Nat :=
  ((rs.filterMap Except.toOption).filter (fun r => r.type_of_event = ty)).length

/-! ### Classifier rule-order specifications (for claim C8) -/

/-- The claim's single "explicit tag-to-type table", which includes the
heading levels, `form`, `table`, `nav` and `iframe` alongside the media and
widget tags. -/
def tagTableClaim : List (String × String) :=
  [("button", "button"), ("a", "link"), ("img", "image"), ("video", "video"),
   ("audio", "audio"), ("canvas", "canvas"), ("svg", "svg"),
   ("select", "dropdown"), ("textarea", "textarea"),
   ("h1", "heading"), ("h2", "heading"), ("h3", "heading"), ("h4", "heading"),
   ("h5", "heading"), ("h6", "heading"),
   ("form", "form"), ("table", "table"), ("nav", "navigation"),
   ("iframe", "iframe")]

/-- Look a tag up in a priority table, falling through to a default. -/
def tableGet (table : List (String × String)) (tag : String) (dflt : String) : String :=
  match table with
  | [] => dflt
  | (k, v) :: rest => if tag = k then v else tableGet rest tag dflt

/-- The classifier as the claim states it: the full tag table first, then
the content-editable flag, then the input-type sub-table (default
`text_input`), then the ARIA role fallback, then the raw tag name. -/
def classifySpecClaim (element : Option Element) : String :=
  match element with
  | none => "unknown"
  | some el =>
    match el.tagName with
    | none => "unknown"
    | some tagRaw =>
      if tagRaw = "" then "unknown" else
      let tag := jsLower tagRaw
      tableGet tagTableClaim tag
        (if el.contentEditable = "true" then "contenteditable"
         else if tag = "input" then (inputTypes.lookup (elementTypeAttr el)).getD "text_input"
         else
           match el.role with
           | some r => if r = "" then tag else tag ++ "_" ++ r
           | none => tag)

/-- The first segment of the tag table: the rules the code checks before
the content-editable flag. -/
def tagTableFirst : List (String × String) :=
  [("button", "button"), ("a", "link"), ("img", "image"), ("video", "video"),
   ("audio", "audio"), ("canvas", "canvas"), ("svg", "svg"),
   ("select", "dropdown"), ("textarea", "textarea")]

/-- The second segment of the tag table: the rules the code checks after
the input-type sub-table. -/
def tagTableSecond : List (String × String) :=
  [("h1", "heading"), ("h2", "heading"), ("h3", "heading"), ("h4", "heading"),
   ("h5", "heading"), ("h6", "heading"),
   ("form", "form"), ("table", "table"), ("nav", "navigation"),
   ("iframe", "iframe")]

/-- The classifier priority order as amended: first tag-table segment
(media/widget tags), then the content-editable flag, then the input-type
sub-table, then the second tag-table segment (headings, form, table, nav,
iframe), then the ARIA role fallback, then the raw tag name. -/
def classifySpecAmended (element : Option Element) : String :=
  match element with
  | none => "unknown"
  | some el =>
    match el.tagName with
    | none => "unknown"
    | some tagRaw =>
      if tagRaw = "" then "unknown" else
      let tag := jsLower tagRaw
      tableGet tagTableFirst tag
        (if el.contentEditable = "true" then "contenteditable"
         else if tag = "input" then (inputTypes.lookup (elementTypeAttr el)).getD "text_input"
         else tableGet tagTableSecond tag
           (match el.role with
            | some r => if r = "" then tag else tag ++ "_" ++ r
            | none => tag))

/-! ## Helper lemmas -/

theorem logEvent_eventCount (st : TrackerState) (now : Int) (ty ob : String)
    (element : Option Element) (chain : List Element) (info : Payload) :
    (logEvent st now ty ob element chain info).1.eventCount = st.eventCount + 1 := rfl

theorem pathParts_isOk (chain : List Element)
    (h : ∀ c ∈ chain, c.tagName.isSome) : ∃ l, pathParts chain = .ok l := by
  induction chain with
  | nil => exact ⟨[], rfl⟩
  | cons c rest ih =>
    obtain ⟨t, ht⟩ := Option.isSome_iff_exists.mp (h c (by simp))
    obtain ⟨l, hl⟩ := ih (fun x hx => h x (by simp [hx]))
    cases h2 : pathPart c with
    | error e =>
      simp only [pathPart, ht] at h2
      exact Except.noConfusion h2
    | ok p =>
      refine ⟨p :: l, ?_⟩
      simp only [pathParts, h2, hl]
      rfl

theorem logEvent_ok (st : TrackerState) (now : Int) (ty ob : String)
    (element : Option Element) (chain : List Element) (info : Payload)
    (h : wellFormedNode element chain = true) :
    ∃ r, (logEvent st now ty ob element chain info).2 = .ok r ∧
      r.event_number = st.eventCount + 1 ∧
      r.session_info.total_events = st.eventCount + 1 ∧
      r.timestamp = now ∧ r.type_of_event = ty ∧ r.payload = info ∧
      r.session_info.max_scroll_depth = st.maxScrollDepth := by
  cases element with
  | none => exact ⟨_, rfl, rfl, rfl, rfl, rfl, rfl, rfl⟩
  | some el =>
    simp only [wellFormedNode, Bool.and_eq_true] at h
    obtain ⟨htag, hchain⟩ := h
    obtain ⟨t, ht⟩ := Option.isSome_iff_exists.mp htag
    obtain ⟨l, hl⟩ := pathParts_isOk chain (by
      intro c hc
      exact List.all_eq_true.mp hchain c hc)
    have hres : (logEvent st now ty ob (some el) chain info).2 =
        .ok { event_number := st.eventCount + 1
              timestamp := now
              relative_time_ms := now - st.sessionStart
              type_of_event := ty
              event_object := ob
              element_identifier := getElementIdentifier (some el)
              element_tag := jsLower t
              element_path := String.intercalate " > " l.reverse
              session_info :=
                { time_on_page_ms := now - st.sessionStart
                  total_events := st.eventCount + 1
                  max_scroll_depth := st.maxScrollDepth }
              payload := info } := by
      simp only [logEvent, ht, getElementPath, hl]
      rfl
    exact ⟨_, hres, rfl, rfl, rfl, rfl, rfl, rfl⟩

theorem processSignals_spec (inputs : List SignalInput) (st : TrackerState)
    (h : ∀ i ∈ inputs, wellFormedInput i = true) :
    (processSignals st inputs).2.map (·.event_number)
        = List.range' (st.eventCount + 1) inputs.length ∧
      (processSignals st inputs).1.eventCount = st.eventCount + inputs.length := by
  induction inputs generalizing st with
  | nil => simp [processSignals]
  | cons i rest ih =>
    have hi : wellFormedNode i.element i.chain = true := h i (by simp)
    have hrest : ∀ j ∈ rest, wellFormedInput j = true := fun j hj => h j (by simp [hj])
    obtain ⟨r, hr, hn, -⟩ :=
      logEvent_ok st i.now i.eventType i.eventObject i.element i.chain i.additionalInfo hi
    have ihr := ih (logEvent st i.now i.eventType i.eventObject i.element i.chain i.additionalInfo).1 hrest
    rw [logEvent_eventCount] at ihr
    simp only [processSignals, hr]
    refine ⟨?_, by simpa [Nat.add_assoc, Nat.add_comm, Nat.add_left_comm] using ihr.2⟩
    simp only [List.map_cons, List.length_cons, List.map_append, hn, ihr.1, List.range'_succ]
    simp [List.range'_succ]

/-! ## Claim theorems -/

/-- C1 (evaluation at the failing input): a malformed middle signal whose
present node lacks a tag name makes `logEvent` increment `eventCount`
(line 177) and then throw the line-188 `TypeError` without emitting, so
three processed signals yield only two records, numbered 1 and 3 — a gap
at 2 — while `event_count` ends at 3: the sequence numbers are not the
exact sequence 1..N and the counter is not incremented "exactly 1 per
emission". -/
theorem c1_sequence_gap_on_malformed_signal :
    (processSignals initState
        [{ now := 1, eventType := "click", eventObject := "button" },
         { now := 2, eventType := "click", eventObject := "button",
           element := some { tagName := none, id := "x" } },
         { now := 3, eventType := "click", eventObject := "button" }]).2.map (·.event_number)
        = [1, 3] ∧
      (processSignals initState
        [{ now := 1, eventType := "click", eventObject := "button" },
         { now := 2, eventType := "click", eventObject := "button",
           element := some { tagName := none, id := "x" } },
         { now := 3, eventType := "click", eventObject := "button" }]).1.eventCount = 3 ∧
      (processSignals initState
        [{ now := 1, eventType := "click", eventObject := "button" },
         { now := 2, eventType := "click", eventObject := "button",
           element := some { tagName := none, id := "x" } },
         { now := 3, eventType := "click", eventObject := "button" }]).2.length = 2 := by
  decide

theorem logEvent_congr_element (st : TrackerState) (now : Int) (ty ob : String)
    (el1 el2 : Element) (chain : List Element) (info : Payload)
    (hid : getElementIdentifier (some el1) = getElementIdentifier (some el2))
    (htag : el1.tagName = el2.tagName) :
    logEvent st now ty ob (some el1) chain info
      = logEvent st now ty ob (some el2) chain info := by
  simp only [logEvent, hid, htag]

theorem getElementType_ignores_value (el : Element) (v : String) :
    getElementType (some { el with value := v }) = getElementType (some el) := rfl

theorem getElementIdentifier_ignores_value (el : Element) (v : String) :
    getElementIdentifier (some { el with value := v }) = getElementIdentifier (some el) := rfl

/-- C3: for every `change` signal whose target is an input of type
`password`, the emitted record's payload `value` equals the fixed mask
`'***'` and never the literal value, and the whole handler result is
independent of the secret text: two runs differing only in the password
value produce identical outputs. -/
theorem c3_password_value_redacted (st : TrackerState) (now : Int) (el : Element)
    (chain : List Element) (v1 v2 : String)
    (hpw : el.type = some "password")
    (hwf : wellFormedNode (some el) chain = true) :
    (∃ r, (changeHandler st now el chain).2 = .ok r ∧
        lookupP r.payload "value" = some (.str "***")) ∧
      changeHandler st now { el with value := v1 } chain
        = changeHandler st now { el with value := v2 } chain := by
  constructor
  · obtain ⟨r, hr, -, -, -, -, hpay, -⟩ :=
      logEvent_ok st now "change" (getElementType (some el)) (some el) chain
        (changeHandlerPayload el) hwf
    refine ⟨r, hr, ?_⟩
    simp [hpay, lookupP, changeHandlerPayload, hpw, List.lookup]
  · have hpay : changeHandlerPayload { el with value := v1 }
        = changeHandlerPayload { el with value := v2 } := by
      simp [changeHandlerPayload, hpw]
    simp only [changeHandler, hpay, getElementType_ignores_value]
    exact logEvent_congr_element st now "change" (getElementType (some el))
      { el with value := v1 } { el with value := v2 } chain
      (changeHandlerPayload { el with value := v2 })
      (by rw [getElementIdentifier_ignores_value el v1, getElementIdentifier_ignores_value el v2]) rfl

theorem c3_password_value_redacted_witness :
    (∃ r, (changeHandler initState 7
        { tagName := some "INPUT", type := some "password", value := "hunter2" } []).2 = .ok r ∧
        lookupP r.payload "value" = some (.str "***")) ∧
      changeHandler initState 7
          { tagName := some "INPUT", type := some "password", value := "hunter2" } []
        = changeHandler initState 7
          { tagName := some "INPUT", type := some "password", value := "s3cret!" } [] := by
  have h := c3_password_value_redacted initState 7
    { tagName := some "INPUT", type := some "password" } [] "hunter2" "s3cret!"
    (by decide) (by decide)
  exact h

/-- `x || 0` leaves a finite value unchanged. -/
theorem jsOrZero_num (q : ℚ) : jsOrZero (.num q) = .num q := by
  by_cases h : q = 0 <;> simp [jsOrZero, h]

theorem scrollPercentage_cases (w : WindowState)
    (h0 : 0 ≤ effScrollTop w)
    (h1 : effScrollTop w ≤ max 0 (w.scrollHeight - w.innerHeight)) :
    (0 < w.scrollHeight - w.innerHeight →
      (getScrollInfo w).scroll_percentage
        = .num ((⌊effScrollTop w / (w.scrollHeight - w.innerHeight) * 100 + 1/2⌋ : ℤ) : ℚ)) ∧
    (w.scrollHeight - w.innerHeight ≤ 0 →
      (getScrollInfo w).scroll_percentage = .num 0) := by
  constructor
  · intro hpos
    have hne : w.scrollHeight - w.innerHeight ≠ 0 := ne_of_gt hpos
    simp [getScrollInfo, jsDiv, hne, jsMulC, jsRound, jsOrZero_num]
  · intro hle
    have hmax : max 0 (w.scrollHeight - w.innerHeight) = 0 := max_eq_left hle
    have hst : effScrollTop w = 0 := le_antisymm (hmax ▸ h1) h0
    by_cases hz : w.scrollHeight - w.innerHeight = 0
    · simp [getScrollInfo, jsDiv, hz, hst, jsMulC, jsRound, jsOrZero]
    · have hdiv : jsDiv (effScrollTop w) (w.scrollHeight - w.innerHeight) = .num 0 := by
        rw [hst]
        simp [jsDiv, hz]
      calc (getScrollInfo w).scroll_percentage
          = jsOrZero (jsRound (jsMulC (jsDiv (effScrollTop w)
              (w.scrollHeight - w.innerHeight)) 100)) := rfl
        _ = jsOrZero (jsRound (jsMulC (.num 0) 100)) := by rw [hdiv]
        _ = .num 0 := by norm_num [jsMulC, jsRound, jsOrZero]

/-- C5: for every scroll computation whose inputs respect the DOM clamp
`0 ≤ scrollTop ≤ max 0 (scrollHeight − viewportHeight)`, the resulting
`scroll_percentage` equals `round(scrollTop / (scrollHeight −
viewportHeight) * 100)` when the denominator is positive, and is the
finite value 0 (never NaN, an infinity, or an error) whenever the
denominator is ≤ 0. -/
theorem c5_scroll_percentage_formula (w : WindowState)
    (h0 : 0 ≤ effScrollTop w)
    (h1 : effScrollTop w ≤ max 0 (w.scrollHeight - w.innerHeight)) :
    (0 < w.scrollHeight - w.innerHeight →
      (getScrollInfo w).scroll_percentage
        = .num ((⌊effScrollTop w / (w.scrollHeight - w.innerHeight) * 100 + 1/2⌋ : ℤ) : ℚ)) ∧
    (w.scrollHeight - w.innerHeight ≤ 0 →
      (getScrollInfo w).scroll_percentage = .num 0) :=
  scrollPercentage_cases w h0 h1

theorem c5_scroll_percentage_formula_witness :
    (getScrollInfo { pageYOffset := 250, scrollHeight := 1000, innerHeight := 500 }).scroll_percentage
        = .num 50 ∧
      (getScrollInfo { pageYOffset := 0, scrollHeight := 500, innerHeight := 500 }).scroll_percentage
        = .num 0 := by
  constructor
  · have h := (c5_scroll_percentage_formula
      { pageYOffset := 250, scrollHeight := 1000, innerHeight := 500 }
      (by norm_num [effScrollTop]) (by norm_num [effScrollTop])).1 (by norm_num)
    rw [h]
    norm_num [effScrollTop]
  · exact (c5_scroll_percentage_formula
      { pageYOffset := 0, scrollHeight := 500, innerHeight := 500 }
      (by norm_num [effScrollTop]) (by norm_num [effScrollTop])).2 (by norm_num)

/-- A window state respecting the DOM clamp on the scroll offset. -/
def wfWindow (w : WindowState) : Prop :=
  0 ≤ effScrollTop w ∧ effScrollTop w ≤ max 0 (w.scrollHeight - w.innerHeight)

instance (w : WindowState) : Decidable (wfWindow w) := by
  unfold wfWindow
  infer_instance

/-- The (finite) scroll percentage of a window state. -/
def pctQ (w : WindowState) : ℚ :=
  match (getScrollInfo w).scroll_percentage with
  | .num q => q
  | _ => 0

theorem scrollPercentage_num_nonneg (w : WindowState) (hw : wfWindow w) :
    (getScrollInfo w).scroll_percentage = .num (pctQ w) ∧ 0 ≤ pctQ w := by
  obtain ⟨h0, h1⟩ := hw
  rcases le_or_lt (w.scrollHeight - w.innerHeight) 0 with hle | hpos
  · have hz := (scrollPercentage_cases w h0 h1).2 hle
    constructor
    · rw [hz]
      simp [pctQ, hz]
    · simp [pctQ, hz]
  · have hp := (scrollPercentage_cases w h0 h1).1 hpos
    have hnn : (0 : ℚ) ≤ ((⌊effScrollTop w / (w.scrollHeight - w.innerHeight) * 100 + 1/2⌋ : ℤ) : ℚ) := by
      have harg : (0 : ℚ) ≤ effScrollTop w / (w.scrollHeight - w.innerHeight) * 100 + 1/2 := by
        have := div_nonneg h0 (le_of_lt hpos)
        nlinarith
      exact_mod_cast Int.floor_nonneg.mpr harg
    constructor
    · rw [hp]
      simp [pctQ, hp]
    · simp [pctQ, hp]
      exact_mod_cast Int.floor_nonneg.mpr (by
        have := div_nonneg h0 (le_of_lt hpos)
        nlinarith)

theorem jsGt_num_max (p m : ℚ) :
    (if jsGt (.num p) (.num m) then JSNum.num p else .num m) = .num (max m p) := by
  by_cases h : p > m
  · simp [jsGt, h, max_eq_right (le_of_lt h)]
  · simp [jsGt, h, max_eq_left (le_of_not_lt h)]

theorem scrollHandlerFire_spec (st : TrackerState) (now : Int) (w : WindowState) (m : ℚ)
    (hm : st.maxScrollDepth = .num m) (hw : wfWindow w) :
    scrollHandlerFire st now w
      = logEvent { st with scrollDepth := .num (pctQ w), maxScrollDepth := .num (max m (pctQ w)) }
          now "scroll" "page" (some documentBody) [] (scrollPayload (getScrollInfo w)) := by
  obtain ⟨hpct, -⟩ := scrollPercentage_num_nonneg w hw
  simp only [scrollHandlerFire]
  rw [hpct, hm]
  by_cases h : pctQ w > m
  · simp [jsGt, h, max_eq_right (le_of_lt h)]
  · simp only [jsGt, decide_eq_true_eq, h, if_false]
    rw [max_eq_left (le_of_not_lt h), ← hm]

theorem runScrolls_snapshots (steps : List (Int × WindowState)) (st : TrackerState) (m : ℚ)
    (hm : st.maxScrollDepth = .num m)
    (hw : ∀ s ∈ steps, wfWindow s.2) :
    ((runScrolls st steps).2.filterMap Except.toOption).map (·.session_info.max_scroll_depth)
        = (List.range steps.length).map
            (fun k => JSNum.num (((steps.map (fun s => pctQ s.2)).take (k+1)).foldl max m)) ∧
      (runScrolls st steps).1.maxScrollDepth
        = .num ((steps.map (fun s => pctQ s.2)).foldl max m) := by
  induction steps generalizing st m with
  | nil => simp [runScrolls, hm]
  | cons s rest ih =>
    have hrest : ∀ x ∈ rest, wfWindow x.2 := fun x hx => hw x (by simp [hx])
    have hfire := scrollHandlerFire_spec st s.1 s.2 m hm (hw s (by simp))
    set st2 : TrackerState :=
      { st with scrollDepth := .num (pctQ s.2), maxScrollDepth := .num (max m (pctQ s.2)) } with hst2
    obtain ⟨r, hr, -, -, -, -, -, hrmax⟩ :=
      logEvent_ok st2 s.1 "scroll" "page" (some documentBody) [] (scrollPayload (getScrollInfo s.2))
        (by decide)
    have hnextmax : (logEvent st2 s.1 "scroll" "page" (some documentBody) []
        (scrollPayload (getScrollInfo s.2))).1.maxScrollDepth = .num (max m (pctQ s.2)) := rfl
    have ihr := ih (logEvent st2 s.1 "scroll" "page" (some documentBody) []
        (scrollPayload (getScrollInfo s.2))).1 (max m (pctQ s.2)) hnextmax hrest
    have hst2max : st2.maxScrollDepth = JSNum.num (max m (pctQ s.2)) := rfl
    constructor
    · simp only [runScrolls, hfire, hr, List.filterMap_cons, Except.toOption, List.map_cons,
        List.length_cons, List.range_succ_eq_map, List.map_map, List.cons.injEq]
      constructor
      · rw [hrmax, hst2max]
        simp
      · rw [ihr.1]
        apply List.map_congr_left
        intro k hk
        simp [List.foldl_cons]
    · simp only [runScrolls, hfire]
      rw [ihr.2]
      simp [List.foldl_cons]

theorem foldl_max_take_le (l : List ℚ) (m : ℚ) (k : ℕ) :
    (l.take (k+1)).foldl max m ≤ (l.take (k+2)).foldl max m := by
  conv_rhs => rw [show k+2 = (k+1)+1 from rfl, List.take_succ]
  cases h : l[k+1]? with
  | none => simp [h]
  | some x => simp [h, List.foldl_append, le_max_left]

theorem chain_le_prefix_max (l : List ℚ) (m : ℚ) :
    List.Chain' (· ≤ ·) ((List.range l.length).map
      (fun k => (l.take (k+1)).foldl max m)) := by
  rw [List.chain'_map]
  cases hl : l.length with
  | zero => simp
  | succ n =>
    rw [List.chain'_range_succ]
    intro i hi
    exact foldl_max_take_le l m i

/-- C6: across any sequence of scroll signals (with DOM-clamped inputs),
`max_scroll_depth` is non-decreasing, the k-th emitted scroll record's
session snapshot shows the maximum `scroll_percentage` seen through step k
(so the update happens before emission, reflecting the new maximum), and
the final state's `max_scroll_depth` is the maximum over all steps. -/
theorem c6_max_scroll_depth_monotone (steps : List (Int × WindowState))
    (hw : ∀ s ∈ steps, wfWindow s.2) :
    ((runScrolls initState steps).2.filterMap Except.toOption).map (·.session_info.max_scroll_depth)
        = (List.range steps.length).map
            (fun k => JSNum.num (((steps.map (fun s => pctQ s.2)).take (k+1)).foldl max 0)) ∧
      List.Chain' (· ≤ ·) ((List.range steps.length).map
        (fun k => ((steps.map (fun s => pctQ s.2)).take (k+1)).foldl max 0)) ∧
      (runScrolls initState steps).1.maxScrollDepth
        = .num ((steps.map (fun s => pctQ s.2)).foldl max 0) := by
  have h := runScrolls_snapshots steps initState 0 rfl hw
  have hchain := chain_le_prefix_max (steps.map (fun s => pctQ s.2)) 0
  refine ⟨h.1, ?_, h.2⟩
  simpa using hchain

theorem c6_max_scroll_depth_monotone_witness :
    ((runScrolls initState
        [(10, { pageYOffset := 250, scrollHeight := 1000, innerHeight := 500 }),
         (20, { pageYOffset := 100, scrollHeight := 1000, innerHeight := 500 }),
         (30, { pageYOffset := 400, scrollHeight := 1000, innerHeight := 500 })]).2.filterMap
          Except.toOption).map (·.session_info.max_scroll_depth)
        = (List.range 3).map
            (fun k => JSNum.num ((([(10, ({ pageYOffset := 250, scrollHeight := 1000, innerHeight := 500 } : WindowState)),
               (20, { pageYOffset := 100, scrollHeight := 1000, innerHeight := 500 }),
               (30, { pageYOffset := 400, scrollHeight := 1000, innerHeight := 500 })].map
                 (fun s => pctQ s.2)).take (k+1)).foldl max 0)) ∧
      List.Chain' (· ≤ ·) ((List.range 3).map
        (fun k => (([(10, ({ pageYOffset := 250, scrollHeight := 1000, innerHeight := 500 } : WindowState)),
           (20, { pageYOffset := 100, scrollHeight := 1000, innerHeight := 500 }),
           (30, { pageYOffset := 400, scrollHeight := 1000, innerHeight := 500 })].map
             (fun s => pctQ s.2)).take (k+1)).foldl max 0)) ∧
      (runScrolls initState
        [(10, { pageYOffset := 250, scrollHeight := 1000, innerHeight := 500 }),
         (20, { pageYOffset := 100, scrollHeight := 1000, innerHeight := 500 }),
         (30, { pageYOffset := 400, scrollHeight := 1000, innerHeight := 500 })]).1.maxScrollDepth
        = .num (([(10, ({ pageYOffset := 250, scrollHeight := 1000, innerHeight := 500 } : WindowState)),
           (20, { pageYOffset := 100, scrollHeight := 1000, innerHeight := 500 }),
           (30, { pageYOffset := 400, scrollHeight := 1000, innerHeight := 500 })].map
             (fun s => pctQ s.2)).foldl max 0) :=
  c6_max_scroll_depth_monotone
    [(10, { pageYOffset := 250, scrollHeight := 1000, innerHeight := 500 }),
     (20, { pageYOffset := 100, scrollHeight := 1000, innerHeight := 500 }),
     (30, { pageYOffset := 400, scrollHeight := 1000, innerHeight := 500 })] (by
      intro s hs
      fin_cases hs <;> exact ⟨by norm_num [effScrollTop], by norm_num [effScrollTop]⟩)

/-- How many `view` records were successfully emitted for a given element
identity. -/
def viewCount (out : List (Nat × Except String LogRecord)) (id : Nat) : Nat :=
  (out.filter (fun p => p.1 == id && p.2.toOption.isSome)).length

theorem viewCount_append (a b : List (Nat × Except String LogRecord)) (id : Nat) :
    viewCount (a ++ b) id = viewCount a id + viewCount b id := by
  simp [viewCount, List.filter_append]

theorem viewCount_single_le (p : Nat × Except String LogRecord) (id : Nat) :
    viewCount [p] id ≤ 1 := by
  simp only [viewCount]
  exact le_trans (List.length_filter_le _ _) (by simp)

theorem viewCount_single_ne (p : Nat × Except String LogRecord) (id : Nat)
    (h : p.1 ≠ id) : viewCount [p] id = 0 := by
  have hb : (p.1 == id) = false := beq_eq_false_iff_ne.mpr h
  simp [viewCount, List.filter, hb]

theorem observerCallback_invariant (entries : List IOEntry) (st : TrackerState)
    (now : Int) (id : Nat) :
    st.observedElements ⊆ (observerCallback st now entries).1.observedElements ∧
      (id ∈ st.observedElements → viewCount (observerCallback st now entries).2 id = 0) ∧
      viewCount (observerCallback st now entries).2 id ≤ 1 := by
  induction entries generalizing st with
  | nil =>
    refine ⟨fun x hx => hx, fun _ => rfl, ?_⟩
    simp [observerCallback, viewCount]
  | cons e rest ih =>
    have hcall : observerCallback st now (e :: rest)
        = ((observerCallback (observeEntry st now e).1 now rest).1,
           (observeEntry st now e).2
             ++ (observerCallback (observeEntry st now e).1 now rest).2) := rfl
    by_cases hc : (e.isIntersecting && !(st.observedElements.contains e.targetId)) = true
    · have hnotmem : e.targetId ∉ st.observedElements := by
        have := (Bool.and_eq_true _ _).mp hc
        simpa using this.2
      have hobs1 : (observeEntry st now e).1.observedElements
          = e.targetId :: st.observedElements := by
        unfold observeEntry
        rw [if_pos hc]
        rfl
      have hout : ∃ res, (observeEntry st now e).2 = [(e.targetId, res)] :=
        ⟨(logEvent { st with observedElements := e.targetId :: st.observedElements }
            now "view" (getElementType (some e.target)) (some e.target) e.chain
            (viewPayload e)).2, by
          unfold observeEntry
          rw [if_pos hc]⟩
      obtain ⟨res, hres⟩ := hout
      have ihs := ih (observeEntry st now e).1
      rw [hcall]
      refine ⟨?_, ?_, ?_⟩
      · intro x hx
        exact ihs.1 (by rw [hobs1]; exact List.mem_cons_of_mem _ hx)
      · intro hid
        rw [hres, viewCount_append]
        have hne : e.targetId ≠ id := by
          intro he
          exact hnotmem (by rw [he]; exact hid)
        have h0 : viewCount [(e.targetId, res)] id = 0 := viewCount_single_ne _ _ hne
        have h1 : viewCount (observerCallback (observeEntry st now e).1 now rest).2 id = 0 :=
          ihs.2.1 (by rw [hobs1]; exact List.mem_cons_of_mem _ hid)
        simp [h0, h1]
      · rw [hres, viewCount_append]
        by_cases hid : id = e.targetId
        · have h1 : viewCount (observerCallback (observeEntry st now e).1 now rest).2 id = 0 :=
            ihs.2.1 (by rw [hobs1, hid]; exact List.mem_cons_self _ _)
          rw [h1]
          simpa using viewCount_single_le _ _
        · have h0 : viewCount [(e.targetId, res)] id = 0 :=
            viewCount_single_ne _ _ (fun h => hid h.symm)
          rw [h0]
          simpa using ihs.2.2
    · have hskip : observeEntry st now e = (st, []) := by
        unfold observeEntry
        rw [if_neg hc]
      have ihs := ih st
      rw [hcall, hskip]
      exact ⟨ihs.1, fun hid => by simpa using ihs.2.1 hid, by simpa using ihs.2.2⟩

theorem observerCallback_emitted_mem (entries : List IOEntry) (st : TrackerState)
    (now : Int) (id : Nat)
    (h : id ∉ (observerCallback st now entries).1.observedElements) :
    viewCount (observerCallback st now entries).2 id = 0 := by
  induction entries generalizing st with
  | nil => rfl
  | cons e rest ih =>
    have hcall : observerCallback st now (e :: rest)
        = ((observerCallback (observeEntry st now e).1 now rest).1,
           (observeEntry st now e).2
             ++ (observerCallback (observeEntry st now e).1 now rest).2) := rfl
    rw [hcall] at h ⊢
    by_cases hc : (e.isIntersecting && !(st.observedElements.contains e.targetId)) = true
    · have hobs1 : (observeEntry st now e).1.observedElements
          = e.targetId :: st.observedElements := by
        unfold observeEntry
        rw [if_pos hc]
        rfl
      have hout : ∃ res, (observeEntry st now e).2 = [(e.targetId, res)] :=
        ⟨(logEvent { st with observedElements := e.targetId :: st.observedElements }
            now "view" (getElementType (some e.target)) (some e.target) e.chain
            (viewPayload e)).2, by
          unfold observeEntry
          rw [if_pos hc]⟩
      obtain ⟨res, hres⟩ := hout
      have hsub := (observerCallback_invariant rest (observeEntry st now e).1 now id).1
      have hne : e.targetId ≠ id := by
        intro he
        apply h
        apply hsub
        rw [hobs1, ← he]
        exact List.mem_cons_self _ _
      rw [hres, viewCount_append, viewCount_single_ne _ _ hne, ih _ h]
    · have hskip : observeEntry st now e = (st, []) := by
        unfold observeEntry
        rw [if_neg hc]
      rw [hskip] at h ⊢
      simpa using ih _ (by simpa using h)

theorem runObserver_invariant (batches : List (Int × List IOEntry)) (st : TrackerState)
    (id : Nat) :
    st.observedElements ⊆ (runObserver st batches).1.observedElements ∧
      (id ∈ st.observedElements → viewCount (runObserver st batches).2 id = 0) ∧
      viewCount (runObserver st batches).2 id ≤ 1 := by
  induction batches generalizing st with
  | nil =>
    refine ⟨fun x hx => hx, fun _ => rfl, ?_⟩
    simp [runObserver, viewCount]
  | cons b rest ih =>
    have hco := observerCallback_invariant b.2 st b.1 id
    have ihs := ih (observerCallback st b.1 b.2).1
    have hcall : runObserver st (b :: rest)
        = ((runObserver (observerCallback st b.1 b.2).1 rest).1,
           (observerCallback st b.1 b.2).2
             ++ (runObserver (observerCallback st b.1 b.2).1 rest).2) := rfl
    rw [hcall]
    refine ⟨fun x hx => ihs.1 (hco.1 hx), ?_, ?_⟩
    · intro hid
      rw [viewCount_append, hco.2.1 hid, ihs.2.1 (hco.1 hid)]
    · rw [viewCount_append]
      by_cases h1 : viewCount (observerCallback st b.1 b.2).2 id = 0
      · simpa [h1] using ihs.2.2
      · have hmem : id ∈ (observerCallback st b.1 b.2).1.observedElements := by
          by_contra hno
          exact h1 (observerCallback_emitted_mem b.2 st b.1 id hno)
        rw [ihs.2.1 hmem]
        simpa using hco.2.2

/-- C7: per session, each element receives at most one `view` record:
membership of `observed_elements` is append-only, an already-observed
element never yields another `view` (covering leave-and-re-enter), and a
first intersecting update for an unobserved (well-formed) element adds it
to `observed_elements` and emits exactly one `view` record. -/
theorem c7_view_emitted_once (st : TrackerState) (now : Int)
    (batches : List (Int × List IOEntry)) (id : Nat) (e : IOEntry)
    (he1 : e.isIntersecting = true)
    (he2 : st.observedElements.contains e.targetId = false)
    (he3 : wellFormedNode (some e.target) e.chain = true) :
    st.observedElements ⊆ (runObserver st batches).1.observedElements ∧
      viewCount (runObserver st batches).2 id ≤ 1 ∧
      (id ∈ st.observedElements → viewCount (runObserver st batches).2 id = 0) ∧
      viewCount (observeEntry st now e).2 e.targetId = 1 ∧
      e.targetId ∈ (observeEntry st now e).1.observedElements := by
  have hc : (e.isIntersecting && !(st.observedElements.contains e.targetId)) = true := by
    rw [he1, he2]
    rfl
  have hobs1 : (observeEntry st now e).1.observedElements
      = e.targetId :: st.observedElements := by
    unfold observeEntry
    rw [if_pos hc]
    rfl
  obtain ⟨r, hr, -⟩ :=
    logEvent_ok { st with observedElements := e.targetId :: st.observedElements } now "view"
      (getElementType (some e.target)) (some e.target) e.chain (viewPayload e) he3
  have hout : (observeEntry st now e).2 = [(e.targetId, Except.ok r)] := by
    have h1 : (observeEntry st now e).2
        = [(e.targetId, (logEvent { st with observedElements := e.targetId :: st.observedElements }
            now "view" (getElementType (some e.target)) (some e.target) e.chain
            (viewPayload e)).2)] := by
      unfold observeEntry
      rw [if_pos hc]
    rw [h1, hr]
  have hinv := runObserver_invariant batches st id
  refine ⟨hinv.1, hinv.2.2, hinv.2.1, ?_, ?_⟩
  · rw [hout]
    simp [viewCount, List.filter, Except.toOption]
  · rw [hobs1]
    exact List.mem_cons_self _ _

theorem c7_view_emitted_once_witness :
    (initState.observedElements ⊆ (runObserver initState
        [(0, [{ targetId := 5, target := { tagName := some "IMG" }, isIntersecting := true },
              { targetId := 5, target := { tagName := some "IMG" }, isIntersecting := true }]),
         (10, [{ targetId := 5, target := { tagName := some "IMG" }, isIntersecting := true }])]).1.observedElements) ∧
      viewCount (runObserver initState
        [(0, [{ targetId := 5, target := { tagName := some "IMG" }, isIntersecting := true },
              { targetId := 5, target := { tagName := some "IMG" }, isIntersecting := true }]),
         (10, [{ targetId := 5, target := { tagName := some "IMG" }, isIntersecting := true }])]).2 5 ≤ 1 ∧
      (5 ∈ initState.observedElements → viewCount (runObserver initState
        [(0, [{ targetId := 5, target := { tagName := some "IMG" }, isIntersecting := true },
              { targetId := 5, target := { tagName := some "IMG" }, isIntersecting := true }]),
         (10, [{ targetId := 5, target := { tagName := some "IMG" }, isIntersecting := true }])]).2 5 = 0) ∧
      viewCount (observeEntry initState 0
        { targetId := 5, target := { tagName := some "IMG" }, isIntersecting := true }).2 5 = 1 ∧
      5 ∈ (observeEntry initState 0
        { targetId := 5, target := { tagName := some "IMG" }, isIntersecting := true }).1.observedElements :=
  c7_view_emitted_once initState 0
    [(0, [{ targetId := 5, target := { tagName := some "IMG" }, isIntersecting := true },
          { targetId := 5, target := { tagName := some "IMG" }, isIntersecting := true }]),
     (10, [{ targetId := 5, target := { tagName := some "IMG" }, isIntersecting := true }])] 5
    { targetId := 5, target := { tagName := some "IMG" }, isIntersecting := true }
    rfl (by decide) (by decide)

/-- C2 (evaluation at the failing input): with the default
`idleTimeout = 30000`, after silence from session start, the idle timer
fires at t = 30000 and emits `user_idle`; the subsequent click at t = 31000
emits a click record but NO `user_active` record, because `logEvent`
unconditionally reset `isIdle` to `false` while emitting `user_idle`, so
`resetIdleTimer`'s `user_active` branch never runs; continued silence then
produces a second consecutive `user_idle` at t = 61000 with no intervening
`user_active`, so the records neither alternate nor report the idle
duration the claim requires. -/
theorem c2_idle_active_failing_run :
    countType (runIdleSim {} [{ time := 31000 }] 70000).2 "user_active" = 0 ∧
      countType (runIdleSim {} [{ time := 31000 }] 70000).2 "user_idle" = 2 ∧
      ((runIdleSim {} [{ time := 31000 }] 70000).2.filterMap Except.toOption).map
          (fun r => (r.type_of_event, r.timestamp))
        = [("user_idle", 30000), ("click", 31000), ("user_idle", 61000)] := by
  decide

theorem mousemoveStep_emit (cfg : Config) (st : TrackerState) (lastMouseLog : Int)
    (e : MouseMove) (h : e.time - lastMouseLog > cfg.mouseMoveThrottle) :
    mousemoveStep cfg st lastMouseLog e
      = ((logEvent { st with mouseTrail := trailPush st.mouseTrail e } e.time "mouse_move"
            "cursor" e.target e.chain (mousemovePayload e)).1, e.time,
          [(logEvent { st with mouseTrail := trailPush st.mouseTrail e } e.time "mouse_move"
            "cursor" e.target e.chain (mousemovePayload e)).2]) := by
  simp only [mousemoveStep]
  rw [if_pos h]

theorem mousemoveStep_skip (cfg : Config) (st : TrackerState) (lastMouseLog : Int)
    (e : MouseMove) (h : ¬(e.time - lastMouseLog > cfg.mouseMoveThrottle)) :
    mousemoveStep cfg st lastMouseLog e
      = ({ st with mouseTrail := trailPush st.mouseTrail e }, lastMouseLog, []) := by
  simp only [mousemoveStep]
  rw [if_neg h]

theorem runMouseMoves_chain (cfg : Config) (moves : List MouseMove) (st : TrackerState)
    (lastLog : Int) (htrack : cfg.trackMouseMovement = true)
    (hmv : ∀ m ∈ moves, wellFormedNode m.target m.chain = true) :
    List.Chain (fun a b => b - a > cfg.mouseMoveThrottle) lastLog
      (((runMouseMoves cfg st lastLog moves).2.2.filterMap Except.toOption).map (·.timestamp)) := by
  induction moves generalizing st lastLog with
  | nil =>
    simp only [runMouseMoves, List.filterMap_nil, List.map_nil]
    exact List.Chain.nil
  | cons m rest ih =>
    have hm := hmv m (by simp)
    have hrest : ∀ x ∈ rest, wellFormedNode x.target x.chain = true :=
      fun x hx => hmv x (by simp [hx])
    have hcall : runMouseMoves cfg st lastLog (m :: rest)
        = ((runMouseMoves cfg (mousemoveStep cfg st lastLog m).1
              (mousemoveStep cfg st lastLog m).2.1 rest).1,
           (runMouseMoves cfg (mousemoveStep cfg st lastLog m).1
              (mousemoveStep cfg st lastLog m).2.1 rest).2.1,
           (mousemoveStep cfg st lastLog m).2.2
             ++ (runMouseMoves cfg (mousemoveStep cfg st lastLog m).1
                  (mousemoveStep cfg st lastLog m).2.1 rest).2.2) := by
      simp only [runMouseMoves]
      rw [if_pos htrack]
    rw [hcall]
    by_cases hemit : m.time - lastLog > cfg.mouseMoveThrottle
    · obtain ⟨r, hr, -, -, hts, -, -, -⟩ :=
        logEvent_ok { st with mouseTrail := trailPush st.mouseTrail m } m.time "mouse_move"
          "cursor" m.target m.chain (mousemovePayload m) hm
      rw [mousemoveStep_emit cfg st lastLog m hemit]
      simp only [List.filterMap_append, List.filterMap_cons, List.filterMap_nil, hr,
        Except.toOption, List.map_append, List.map_cons, List.map_nil, List.nil_append,
        List.singleton_append, hts]
      exact List.Chain.cons hemit (ih _ _ hrest)
    · rw [mousemoveStep_skip cfg st lastLog m hemit]
      simpa using ih _ _ hrest

/-- C4 (corrected): when mouse-move signals arrive faster than
`mouseMoveThrottle`, at most one `mouse_move` record is emitted per
throttle interval (successive emission times are always more than the
throttle apart), and the emitted record carries the data of the signal
that triggered it — the first of the interval — while later signals in
the interval are dropped entirely; when the two signals are identical, the
single record's coordinates therefore coincide with the second signal's. -/
theorem c4_throttle_first_signal_wins (cfg : Config) (st : TrackerState) (lastLog : Int)
    (m1 m2 : MouseMove) (moves : List MouseMove)
    (htrack : cfg.trackMouseMovement = true)
    (h1 : m1.time - lastLog > cfg.mouseMoveThrottle)
    (h2 : ¬(m2.time - m1.time > cfg.mouseMoveThrottle))
    (hwf : wellFormedNode m1.target m1.chain = true)
    (hmv : ∀ m ∈ moves, wellFormedNode m.target m.chain = true) :
    (∃ r, (runMouseMoves cfg st lastLog [m1, m2]).2.2 = [Except.ok r] ∧
        lookupP r.payload "coordinates.x" = some (.int m1.clientX) ∧
        lookupP r.payload "coordinates.y" = some (.int m1.clientY) ∧
        r.timestamp = m1.time) ∧
      List.Chain (fun a b => b - a > cfg.mouseMoveThrottle) lastLog
        (((runMouseMoves cfg st lastLog moves).2.2.filterMap Except.toOption).map (·.timestamp)) := by
  refine ⟨?_, runMouseMoves_chain cfg moves st lastLog htrack hmv⟩
  obtain ⟨r, hr, -, -, hts, -, hpay, -⟩ :=
    logEvent_ok { st with mouseTrail := trailPush st.mouseTrail m1 } m1.time "mouse_move"
      "cursor" m1.target m1.chain (mousemovePayload m1) hwf
  refine ⟨r, ?_, ?_, ?_, hts⟩
  · have hcall : runMouseMoves cfg st lastLog [m1, m2]
        = ((runMouseMoves cfg (mousemoveStep cfg st lastLog m1).1
              (mousemoveStep cfg st lastLog m1).2.1 [m2]).1,
           (runMouseMoves cfg (mousemoveStep cfg st lastLog m1).1
              (mousemoveStep cfg st lastLog m1).2.1 [m2]).2.1,
           (mousemoveStep cfg st lastLog m1).2.2
             ++ (runMouseMoves cfg (mousemoveStep cfg st lastLog m1).1
                  (mousemoveStep cfg st lastLog m1).2.1 [m2]).2.2) := by
      simp only [runMouseMoves]
      rw [if_pos htrack]
    rw [hcall, mousemoveStep_emit cfg st lastLog m1 h1]
    have hcall2 : ∀ st2 : TrackerState, runMouseMoves cfg st2 m1.time [m2]
        = ((runMouseMoves cfg (mousemoveStep cfg st2 m1.time m2).1
              (mousemoveStep cfg st2 m1.time m2).2.1 []).1,
           (runMouseMoves cfg (mousemoveStep cfg st2 m1.time m2).1
              (mousemoveStep cfg st2 m1.time m2).2.1 []).2.1,
           (mousemoveStep cfg st2 m1.time m2).2.2
             ++ (runMouseMoves cfg (mousemoveStep cfg st2 m1.time m2).1
                  (mousemoveStep cfg st2 m1.time m2).2.1 []).2.2) := by
      intro st2
      simp only [runMouseMoves]
      rw [if_pos htrack]
    rw [hcall2, mousemoveStep_skip cfg _ m1.time m2 h2]
    simp only [runMouseMoves, List.append_nil, List.nil_append, hr]
  · rw [hpay]
    simp [lookupP, mousemovePayload, List.lookup]
  · rw [hpay]
    simp [lookupP, mousemovePayload, List.lookup]

theorem c4_throttle_first_signal_wins_witness :
    (∃ r, (runMouseMoves {} initState 0
        [{ time := 1000, clientX := 7, clientY := 8, target := some { tagName := some "DIV" } },
         { time := 1100, clientX := 7, clientY := 8,
           target := some { tagName := some "DIV" } }]).2.2 = [Except.ok r] ∧
        lookupP r.payload "coordinates.x" = some (.int 7) ∧
        lookupP r.payload "coordinates.y" = some (.int 8) ∧
        r.timestamp = 1000) ∧
      List.Chain (fun a b => b - a > (500 : Int)) 0
        (((runMouseMoves {} initState 0
            [{ time := 600, clientX := 1, clientY := 1, target := some { tagName := some "DIV" } },
             { time := 700, clientX := 2, clientY := 2, target := some { tagName := some "DIV" } },
             { time := 1200, clientX := 3, clientY := 3,
               target := some { tagName := some "DIV" } }]).2.2.filterMap Except.toOption).map
          (·.timestamp)) :=
  c4_throttle_first_signal_wins {} initState 0
    { time := 1000, clientX := 7, clientY := 8, target := some { tagName := some "DIV" } }
    { time := 1100, clientX := 7, clientY := 8, target := some { tagName := some "DIV" } }
    [{ time := 600, clientX := 1, clientY := 1, target := some { tagName := some "DIV" } },
     { time := 700, clientX := 2, clientY := 2, target := some { tagName := some "DIV" } },
     { time := 1200, clientX := 3, clientY := 3, target := some { tagName := some "DIV" } }]
    rfl (by decide) (by decide) (by decide) (by decide)

/-- C4 (counterexample to the claim as stated): two distinct mouse-move
signals 100 ms apart under the default 500 ms throttle produce exactly one
record, and it carries the FIRST signal's coordinates (0), not the second
signal's coordinates (5) as the claim asserts. -/
theorem c4_throttle_counterexample :
    ((runMouseMoves {} initState 0
        [{ time := 1000, clientX := 0, clientY := 0, target := some { tagName := some "DIV" } },
         { time := 1100, clientX := 5, clientY := 5,
           target := some { tagName := some "DIV" } }]).2.2.filterMap Except.toOption).map
        (fun rec => lookupP rec.payload "coordinates.x")
      = [some (.int 0)] ∧
    (runMouseMoves {} initState 0
        [{ time := 1000, clientX := 0, clientY := 0, target := some { tagName := some "DIV" } },
         { time := 1100, clientX := 5, clientY := 5,
           target := some { tagName := some "DIV" } }]).2.2.length = 1 ∧
    some (PValue.int 0) ≠ some (PValue.int 5) := by
  decide

set_option maxHeartbeats 2000000 in
/-- C8 (amended): `getElementType` is a pure function of the node's state
and applies its rules in this priority order: the media/widget segment of
the tag table (button through textarea) first, THEN the content-editable
flag, then the input-type sub-table defaulting to `text_input`, then the
remaining tag-table segment (heading levels, form, table, nav, iframe),
then the ARIA role fallback `"<tag>_<role>"`, then the raw tag name — so a
content-editable form classifies as `contenteditable`, not by the tag
table. -/
theorem c8_classify_priority_amended (element : Option Element) :
    getElementType element = classifySpecAmended element := by
  cases element with
  | none => rfl
  | some el =>
    cases htag : el.tagName with
    | none => simp [getElementType, classifySpecAmended, htag]
    | some t =>
      by_cases ht0 : t = ""
      · simp [getElementType, classifySpecAmended, htag, ht0]
      · simp only [getElementType, classifySpecAmended, htag, ht0, if_false,
          tableGet, tagTableFirst, tagTableSecond]
        by_cases h1 : jsLower t = "button"
        · simp [h1]
        simp only [if_neg h1]
        by_cases h2 : jsLower t = "a"
        · simp [h2]
        simp only [if_neg h2]
        by_cases h3 : jsLower t = "img"
        · simp [h3]
        simp only [if_neg h3]
        by_cases h4 : jsLower t = "video"
        · simp [h4]
        simp only [if_neg h4]
        by_cases h5 : jsLower t = "audio"
        · simp [h5]
        simp only [if_neg h5]
        by_cases h6 : jsLower t = "canvas"
        · simp [h6]
        simp only [if_neg h6]
        by_cases h7 : jsLower t = "svg"
        · simp [h7]
        simp only [if_neg h7]
        by_cases h8 : jsLower t = "select"
        · simp [h8]
        simp only [if_neg h8]
        by_cases h9 : jsLower t = "textarea"
        · simp [h9]
        simp only [if_neg h9]
        by_cases h10 : el.contentEditable = "true"
        · simp [h10]
        simp only [if_neg h10]
        by_cases h11 : jsLower t = "input"
        · simp [h11]
        simp only [if_neg h11]
        by_cases h12 : jsLower t = "h1"
        · simp [h12, List.contains_cons, List.contains_nil]
        simp only [if_neg h12]
        by_cases h13 : jsLower t = "h2"
        · simp [h13, List.contains_cons, List.contains_nil]
        simp only [if_neg h13]
        by_cases h14 : jsLower t = "h3"
        · simp [h14, List.contains_cons, List.contains_nil]
        simp only [if_neg h14]
        by_cases h15 : jsLower t = "h4"
        · simp [h15, List.contains_cons, List.contains_nil]
        simp only [if_neg h15]
        by_cases h16 : jsLower t = "h5"
        · simp [h16, List.contains_cons, List.contains_nil]
        simp only [if_neg h16]
        by_cases h17 : jsLower t = "h6"
        · simp [h17, List.contains_cons, List.contains_nil]
        simp only [if_neg h17]
        have hcont : ¬((["h1", "h2", "h3", "h4", "h5", "h6"].contains (jsLower t)) = true) := by
          simp [List.contains_cons, List.contains_nil, Bool.or_eq_true, beq_iff_eq, h12, h13, h14, h15, h16, h17]
        simp only [if_neg hcont]

/-- C8 (counterexample to the claim as stated): for a content-editable
form element, the code's classifier returns `"contenteditable"` while the
claimed priority order (full tag table, including `form`, before the
content-editable flag) would return `"form"`. -/
theorem c8_classify_priority_counterexample :
    getElementType (some { tagName := some "FORM", contentEditable := "true" })
        = "contenteditable" ∧
      classifySpecClaim (some { tagName := some "FORM", contentEditable := "true" })
        = "form" ∧
      getElementType (some { tagName := some "FORM", contentEditable := "true" })
        ≠ classifySpecClaim (some { tagName := some "FORM", contentEditable := "true" }) := by
  refine ⟨by decide, by decide, by decide⟩

/-- C9 (evaluation at the failing input): the classifier degrades to
`"unknown"` for an absent node and for a node lacking a tag name, the
identifier degrades to `"unknown"` for an absent node, and `logEvent`
succeeds for an absent node — but for a present node lacking a tag name
the identifier returns `"#x"` (not `"unknown"`) and `logEvent` throws a
`TypeError` at the unguarded `element.tagName.toLowerCase()` instead of
producing a record. -/
theorem c9_malformed_node_throws :
    getElementType (some { tagName := none, id := "x" }) = "unknown" ∧
      getElementType none = "unknown" ∧
      getElementIdentifier none = "unknown" ∧
      getElementIdentifier (some { tagName := none, id := "x" }) = "#x" ∧
      (logEvent initState 0 "click" "unknown" none [] []).2.isOk = true ∧
      (logEvent initState 0 "click" "unknown"
          (some { tagName := none, id := "x" }) [{ tagName := none, id := "x" }] []).2
        = .error "TypeError: Cannot read properties of undefined (reading toLowerCase)" := by
  refine ⟨rfl, rfl, rfl, by decide, rfl, rfl⟩

theorem logEvent_ok_payload (st : TrackerState) (now : Int) (ty ob : String)
    (element : Option Element) (chain : List Element) (info : Payload) (r : LogRecord)
    (h : (logEvent st now ty ob element chain info).2 = .ok r) : r.payload = info := by
  cases element with
  | none =>
    injection h with h2
    rw [← h2]
  | some el =>
    cases ht : el.tagName with
    | none =>
      simp only [logEvent, ht] at h
      exact Except.noConfusion h
    | some t =>
      cases hp : pathParts chain with
      | error msg =>
        simp only [logEvent, ht, getElementPath, hp] at h
        exact Except.noConfusion h
      | ok l =>
        simp only [logEvent, ht, getElementPath, hp] at h
        injection h with h2
        rw [← h2]

/-- C10: whenever keyboard tracking is enabled, a `keydown` signal yields
exactly one keyboard record whose payload carries the literal pressed key
(`e.key` and `e.code`), for every target element — including a password
input, whose `change`-event value is masked but whose keystrokes are not. -/
theorem c10_keydown_literal_key (cfg : Config) (st : TrackerState) (now : Int)
    (e : KeyboardEvent)
    (h : cfg.trackKeyboard = true)
    (hwf : wellFormedNode e.target e.chain = true) :
    ∃ rec, (keydownHandler cfg st now e).2 = [Except.ok rec] ∧
      lookupP rec.payload "key" = some (.str e.key) ∧
      lookupP rec.payload "code" = some (.str e.code) := by
  obtain ⟨r, hr, -, -, -, -, hpay, -⟩ :=
    logEvent_ok st now "keyboard" "keydown" e.target e.chain (keydownPayload e) hwf
  refine ⟨r, ?_, ?_, ?_⟩
  · show (if cfg.trackKeyboard then
        ((logEvent st now "keyboard" "keydown" e.target e.chain (keydownPayload e)).1,
         [(logEvent st now "keyboard" "keydown" e.target e.chain (keydownPayload e)).2])
      else (st, [])).2 = [Except.ok r]
    rw [if_pos h]
    simp only [hr]
  · rw [hpay]
    simp [lookupP, keydownPayload, List.lookup]
  · rw [hpay]
    simp [lookupP, keydownPayload, List.lookup]

theorem c10_keydown_literal_key_witness :
    ∃ rec, (keydownHandler {} initState 3
        { key := "h", code := "KeyH",
          target := some { tagName := some "INPUT", type := some "password" } }).2
        = [Except.ok rec] ∧
      lookupP rec.payload "key" = some (.str "h") ∧
      lookupP rec.payload "code" = some (.str "KeyH") :=
  c10_keydown_literal_key {} initState 3
    { key := "h", code := "KeyH",
      target := some { tagName := some "INPUT", type := some "password" } }
    rfl (by decide)

end EventTracker
